import Mathlib

/-!
Verification of the bulk CSV ingestion pipeline (`importar_*` routines) and
the statistical analytics engine of the datapersistence repository.

The importers receive pandas dataframes read with `dtype=str` from
semicolon-delimited, Latin-1 decoded uploads, so every cell is either a
string or NaN; a cell is modelled as `Option String` with `none` for NaN.
Python-level value semantics (`str.isnumeric`, `str.isdigit`, `int()`,
`float()`, truthiness) are embedded explicitly below, restricted where noted
to the Latin-1 character range that the decoded input can contain.
Monetary and statistical values are modelled as exact rationals; binary
floating-point rounding is not modelled.
-/

/-- Value of a list of decimal digit characters, most significant first. -/
def digitsVal (ds : List Char) : ℕ :=
  ds.foldl (fun n c => 10 * n + (c.toNat - 48)) 0

/-- Value of a string of decimal digit characters. -/
def digitsToNat (s : String) : ℕ :=
  digitsVal s.data

/-- Python `str.isnumeric` on one character, restricted to the Latin-1 range
of the importers' decoded input: the decimal digits plus the superscripts
and vulgar fractions, which have the Unicode Numeric property. -/
def pyCharIsNumeric (c : Char) : Bool :=
  c.isDigit || c = '¹' || c = '²' || c = '³' || c = '¼' || c = '½' || c = '¾'

/-- Python `str.isnumeric`: nonempty and every character numeric. -/
def pyStrIsNumeric (s : String) : Bool :=
  !s.data.isEmpty && s.data.all pyCharIsNumeric

/-- Python `str.isdigit` on one character, restricted to Latin-1: the decimal
digits plus the superscripts (which have Numeric_Type=Digit); the vulgar
fractions are numeric but not digits. -/
def pyCharIsDigit (c : Char) : Bool :=
  c.isDigit || c = '¹' || c = '²' || c = '³'

/-- Python `str.isdigit`: nonempty and every character a digit. -/
def pyStrIsDigit (s : String) : Bool :=
  !s.data.isEmpty && s.data.all pyCharIsDigit

/-- Python `str.lower` on one character, restricted to Latin-1: ASCII
uppercase and the accented uppercase block `À`..`Þ` (excluding `×`) shift
down by 32 code points. -/
def pyCharLower (c : Char) : Char :=
  if (('A' ≤ c ∧ c ≤ 'Z') ∨ (('À' ≤ c ∧ c ≤ 'Þ') ∧ c ≠ '×')) then
    Char.ofNat (c.toNat + 32)
  else c

/-- Python `str.lower`, restricted to Latin-1. -/
def pyLower (s : String) : String :=
  String.mk (s.data.map pyCharLower)

/-- Python `str.upper` on one character, restricted to Latin-1: ASCII
lowercase and the accented lowercase block `à`..`þ` (excluding `÷`) shift up
by 32 code points. (`ß` and `ÿ`, whose uppercase forms leave Latin-1, are
kept unchanged; they do not occur in the phrases the importers test.) -/
def pyCharUpper (c : Char) : Char :=
  if (('a' ≤ c ∧ c ≤ 'z') ∨ (('à' ≤ c ∧ c ≤ 'þ') ∧ c ≠ '÷' ∧ c ≠ 'ß' ∧ c ≠ 'ÿ')) then
    Char.ofNat (c.toNat - 32)
  else c

/-- Python `str.upper`, restricted to Latin-1. -/
def pyUpper (s : String) : String :=
  String.mk (s.data.map pyCharUpper)

/-- Python `str.isspace` on one character, restricted to Latin-1: the ASCII
whitespace and separator controls plus NEL and the no-break space. -/
def pyCharIsSpace (c : Char) : Bool :=
  c = ' ' || c = '\t' || c = '\n' || c = '\r' || c = '\x0b' || c = '\x0c' ||
  c = '\x1c' || c = '\x1d' || c = '\x1e' || c = '\x1f' || c = '\x85' || c = '\xa0'

/-- Python `str.strip()` with no argument: drop leading and trailing
whitespace. -/
def pyStrip (s : String) : String :=
  String.mk (((s.data.dropWhile pyCharIsSpace).reverse.dropWhile pyCharIsSpace).reverse)

/-- Split a character list on a separator character (every occurrence,
keeping empty pieces), as Python `str.split(sep)` does. -/
def splitOnCharAux (sep : Char) : List Char → List Char → List (List Char)
  | [], acc => [acc.reverse]
  | c :: cs, acc =>
    if c = sep then acc.reverse :: splitOnCharAux sep cs []
    else splitOnCharAux sep cs (c :: acc)

/-- Split a character list on a separator character. -/
def splitOnChar (sep : Char) (l : List Char) : List (List Char) :=
  splitOnCharAux sep l []

/-- Python `int()` on a string: strip whitespace, optional sign, then decimal
digits only (Latin-1 has no other characters of Numeric_Type=Decimal).
`none` models the `ValueError` that `int()` raises otherwise. -/
def pyIntOfString (s : String) : Option ℤ :=
  let t := pyStrip s
  match t.data with
  | [] => none
  | '-' :: ds => if ds ≠ [] ∧ ds.all Char.isDigit then some (-(digitsVal ds : ℤ)) else none
  | '+' :: ds => if ds ≠ [] ∧ ds.all Char.isDigit then some ((digitsVal ds : ℤ)) else none
  | ds => if ds.all Char.isDigit then some ((digitsVal ds : ℤ)) else none

/-- Result of Python `float()`: a finite value (modelled exactly as a
rational), an infinity, or a NaN. -/
inductive PyFloat where
  | finite (q : ℚ)
  | posInf
  | negInf
  | nan
deriving DecidableEq, Repr

/-- Fractional part value of the digits after the decimal point. -/
def fracVal (ds : List Char) : ℚ :=
  (digitsVal ds : ℚ) / ((10 : ℚ) ^ ds.length)

/-- Parse the optional exponent suffix of a Python float literal and apply it
to the mantissa `m`; the whole remainder must be consumed. -/
def parseExpSuffix (m : ℚ) (cs : List Char) : Option ℚ :=
  match cs with
  | [] => some m
  | 'e' :: rest =>
    match rest with
    | '+' :: ds => if ds ≠ [] ∧ ds.all Char.isDigit then some (m * (10 : ℚ) ^ (digitsVal ds : ℤ)) else none
    | '-' :: ds => if ds ≠ [] ∧ ds.all Char.isDigit then some (m * (10 : ℚ) ^ (-(digitsVal ds : ℤ))) else none
    | ds => if ds ≠ [] ∧ ds.all Char.isDigit then some (m * (10 : ℚ) ^ (digitsVal ds : ℤ)) else none
  | _ => none

/-- Parse an unsigned Python float literal body `digits [. digits] [exp]`
(at least one mantissa digit required; the underscore digit-group form is
not modelled). -/
def parseUnsignedFloat (cs : List Char) : Option ℚ :=
  let p := cs.span Char.isDigit
  match p.2 with
  | '.' :: r2 =>
    let q := r2.span Char.isDigit
    if p.1 = [] ∧ q.1 = [] then none
    else parseExpSuffix ((digitsVal p.1 : ℚ) + fracVal q.1) q.2
  | r1 =>
    if p.1 = [] then none else parseExpSuffix ((digitsVal p.1 : ℚ)) r1

/-- Python `float()` on a string: strip whitespace, case-insensitive special
values `inf`/`infinity`/`nan` with optional sign, otherwise a signed decimal
literal with optional exponent. `none` models the raised `ValueError`. -/
def pyFloatOfString (s : String) : Option PyFloat :=
  let t := pyLower (pyStrip s)
  let body := match t.data with
    | '+' :: r => (false, r)
    | '-' :: r => (true, r)
    | r => (false, r)
  if body.2 = "inf".data ∨ body.2 = "infinity".data then
    some (if body.1 then PyFloat.negInf else PyFloat.posInf)
  else if body.2 = "nan".data then
    some PyFloat.nan
  else
    match parseUnsignedFloat body.2 with
    | some q => some (PyFloat.finite (if body.1 then -q else q))
    | none => none

/-- Python `int()` applied to a float value: truncation toward zero. -/
def pyTrunc (q : ℚ) : ℤ :=
  if 0 ≤ q then q.floor else -((-q).floor)

/-! ## Raw tabular input

A raw CSV cell is `Option String` (`none` is a pandas NaN); a row is an
association list from source column name to cell; a table carries the header
list and the rows. -/

/-- A raw CSV cell. -/
abbrev Cell := Option String

/-- A raw CSV row: association list from column name to cell. -/
abbrev RawRow := List (String × Cell)

/-- Read the cell of column `c` in row `r` (missing association = NaN). -/
def getCell (r : RawRow) (c : String) : Cell :=
  match r.find? (fun p => p.1 = c) with
  | some p => p.2
  | none => none

/-- A raw dataframe: header and rows. -/
structure RawTable where
  columns : List String
  rows : List RawRow

/-- The required-column check shared by all importers: the first entry of the
expected column list that is absent from the dataframe header, in the
expected list's order. -/
def firstMissing (required cols : List String) : Option String :=
  required.find? (fun c => decide (c ∉ cols))

/-! ## Dates -/

/-- A calendar date produced by `datetime.strptime(val, "%d/%m/%Y").date()`. -/
structure PyDate where
  year : ℕ
  month : ℕ
  day : ℕ
deriving DecidableEq, Repr

/-- Number of days of `month` in `year` (proleptic Gregorian, as validated by
`datetime`). -/
def daysInMonth (year month : ℕ) : ℕ :=
  if month = 2 then
    if year % 4 = 0 ∧ (year % 100 ≠ 0 ∨ year % 400 = 0) then 29 else 28
  else if month = 4 ∨ month = 6 ∨ month = 9 ∨ month = 11 then 30
  else 31

/-- The `parse_data` helper shared by the absence and role-assignment
importers: `datetime.strptime(val.strip(), "%d/%m/%Y")` with NaN and parse
failures mapped to `None`. `%d` and `%m` match one or two digits, `%Y`
exactly four; the date must be valid. -/
def parse_data (c : Cell) : Option PyDate :=
  match c with
  | none => none
  | some s =>
    match splitOnChar '/' (pyStrip s).data with
    | [d, m, y] =>
      if d ≠ [] ∧ d.length ≤ 2 ∧ d.all Char.isDigit ∧
         m ≠ [] ∧ m.length ≤ 2 ∧ m.all Char.isDigit ∧
         y.length = 4 ∧ y.all Char.isDigit then
        let dn := digitsVal d
        let mn := digitsVal m
        let yn := digitsVal y
        if 1 ≤ yn ∧ yn ≤ 9999 ∧ 1 ≤ mn ∧ mn ≤ 12 ∧ 1 ≤ dn ∧ dn ≤ daysInMonth yn mn then
          some ⟨yn, mn, dn⟩
        else none
      else none
    | _ => none

/-! ## Currency parsing (pay importer) -/

/-- `val.replace(".", "").replace(",", ".")` from the pay importer's
`to_float`: drop the thousands separators, then turn the decimal comma into
a dot. -/
def swapSeps (s : String) : String :=
  String.mk ((s.data.filter (fun c => c ≠ '.')).map (fun c => if c = ',' then '.' else c))

/-- The pay importer's `to_float`: parse the separator-swapped string with
`float()`; any parse failure yields `0.0`. -/
def to_float (s : String) : PyFloat :=
  match pyFloatOfString (swapSeps s) with
  | some f => f
  | none => PyFloat.finite 0

/-- One monetary column entry after `fillna("0,00").astype(str).apply(to_float)`:
a missing cell is first replaced by the string `"0,00"`. -/
def to_float_cell (c : Cell) : PyFloat :=
  to_float (c.getD "0,00")

/-! ## Chunked loading

`for i in range(0, len(registros), chunk_size): chunk = registros[i:i+chunk_size]`
splits the record list into consecutive chunks. Store persistence is
modelled as list append; a failure oracle `failAt : ℕ → Bool` tells whether
executing the chunk with a given index raises at the store level. -/

/-- Split `l` into consecutive chunks of size `n`; `fuel` bounds the
recursion and `l.length` is always enough fuel when `0 < n`. -/
def chunksOfAux (fuel n : ℕ) (l : List α) : List (List α) :=
  match l, fuel with
  | [], _ => []
  | _ :: _, 0 => []
  | x :: xs, f + 1 => (x :: xs).take n :: chunksOfAux f n ((x :: xs).drop n)

/-- Split a record list into consecutive chunks of size `n`. -/
def chunksOf (n : ℕ) (l : List α) : List (List α) :=
  chunksOfAux l.length n l

/-- The chunk loop WITHOUT a `try/except` (servers, pay, absence and remark
importers): each chunk is executed and committed; a store-level failure
propagates immediately, leaving the chunks already committed in the store. -/
def loadChunksNoCatch (failAt : ℕ → Bool) :
    List (List α) → List α → ℕ → ℕ → List α × Except String ℕ
  | [], store, total, _ => (store, Except.ok total)
  | c :: cs, store, total, i =>
    if failAt i then (store, Except.error "chunk insert failed")
    else loadChunksNoCatch failAt cs (store ++ c) (total + c.length) (i + 1)

/-- The chunk loop WITH the `try/except` (role-catalog and role-assignment
importers): a failing chunk is rolled back, logged and skipped; the loop
continues and only successfully committed chunks add to the store and to
`total_processados`. -/
def loadChunksCatch (failAt : ℕ → Bool) :
    List (List α) → List α → ℕ → ℕ → List α × ℕ
  | [], store, total, _ => (store, total)
  | c :: cs, store, total, i =>
    if failAt i then loadChunksCatch failAt cs store total (i + 1)
    else loadChunksCatch failAt cs (store ++ c) (total + c.length) (i + 1)

/-- The chunks that commit successfully: those whose index the failure
oracle accepts. -/
def keptChunks (failAt : ℕ → Bool) : List (List α) → ℕ → List (List α)
  | [], _ => []
  | c :: cs, i =>
    if failAt i then keptChunks failAt cs (i + 1)
    else c :: keptChunks failAt cs (i + 1)

/-! ## Pay importer (`importar_remuneracoes_dataframe`) -/

/-- A normalized pay record as inserted into the `remuneracoes` table. -/
structure RemRow where
  id_servidor : ℤ
  ano : ℤ
  mes : ℤ
  remuneracao : PyFloat
  irrf : PyFloat
  pss_rpgs : PyFloat
  remuneracao_final : PyFloat
deriving DecidableEq, Repr

/-- Expected source columns of the pay importer, in declaration order. -/
def remRequired : List String :=
  ["Id_SERVIDOR_PORTAL", "ANO", "MES",
   "REMUNERAÇÃO BÁSICA BRUTA (R$)", "IRRF (R$)", "PSS/RPGS (R$)",
   "REMUNERAÇÃO APÓS DEDUÇÕES OBRIGATÓRIAS (R$)"]

/-- Normalize one pay row that survived `dropna` and the `isnumeric` filter:
`astype(int)` on id/year/month (`none` models the raised `ValueError`),
`to_float` with `fillna("0,00")` on the four monetary columns. -/
def normalizeRemRow (r : RawRow) : Option RemRow := do
  let idserv ← pyIntOfString ((getCell r "Id_SERVIDOR_PORTAL").getD "")
  let ano ← pyIntOfString ((getCell r "ANO").getD "")
  let mes ← pyIntOfString ((getCell r "MES").getD "")
  pure { id_servidor := idserv, ano := ano, mes := mes,
         remuneracao := to_float_cell (getCell r "REMUNERAÇÃO BÁSICA BRUTA (R$)"),
         irrf := to_float_cell (getCell r "IRRF (R$)"),
         pss_rpgs := to_float_cell (getCell r "PSS/RPGS (R$)"),
         remuneracao_final := to_float_cell (getCell r "REMUNERAÇÃO APÓS DEDUÇÕES OBRIGATÓRIAS (R$)") }

/-- The pay rows kept by `dropna(subset=["id_servidor","ano","mes"])` followed
by the `str.isnumeric()` filter on the person id. -/
def remKeptRows (df : RawTable) : List RawRow :=
  (df.rows.filter (fun r =>
      (getCell r "Id_SERVIDOR_PORTAL").isSome &&
      (getCell r "ANO").isSome && (getCell r "MES").isSome)).filter
    (fun r => pyStrIsNumeric ((getCell r "Id_SERVIDOR_PORTAL").getD ""))

/-- `importar_remuneracoes_dataframe`: required-column check, row filtering
and coercion, then the chunk loop (chunk size 1000) WITHOUT `try/except` —
a store-level chunk failure propagates to the caller. -/
def importar_remuneracoes_dataframe (df : RawTable) (store : List RemRow)
    (failAt : ℕ → Bool) : List RemRow × Except String ℕ :=
  match firstMissing remRequired df.columns with
  | some c => (store, Except.error ("Coluna ausente no CSV: " ++ c))
  | none =>
    match (remKeptRows df).mapM normalizeRemRow with
    | none => (store, Except.error "invalid literal for int")
    | some registros => loadChunksNoCatch failAt (chunksOf 1000 registros) store 0 0

/-! ## Server importer (`importar_servidores_dataframe`) -/

/-- A normalized server record as inserted into the `servidores` table. -/
structure ServRow where
  id_servidor : ℤ
  nome : String
  cpf : String
  descr_cargo : String
  org_superior : String
  org_exercicio : String
  regime : String
  jornada_trabalho : String
deriving DecidableEq, Repr

/-- Expected source columns of the server importer, in declaration order. -/
def servRequired : List String :=
  ["Id_SERVIDOR_PORTAL", "NOME", "CPF", "DESCRICAO_CARGO",
   "ORGSUP_EXERCICIO", "ORG_EXERCICIO", "REGIME_JURIDICO", "JORNADA_DE_TRABALHO"]

/-- Per-row string cleaning of the server importer: `fillna("")`, strip, and
upper-casing of the four organizational fields; the id is cast with
`astype(int)` after the `isnumeric` filter. -/
def normalizeServRow (r : RawRow) : Option ServRow := do
  let idserv ← pyIntOfString ((getCell r "Id_SERVIDOR_PORTAL").getD "")
  pure { id_servidor := idserv,
         nome := pyStrip ((getCell r "NOME").getD ""),
         cpf := pyStrip ((getCell r "CPF").getD ""),
         descr_cargo := pyStrip ((getCell r "DESCRICAO_CARGO").getD ""),
         org_superior := pyUpper (pyStrip ((getCell r "ORGSUP_EXERCICIO").getD "")),
         org_exercicio := pyUpper (pyStrip ((getCell r "ORG_EXERCICIO").getD "")),
         regime := pyUpper (pyStrip ((getCell r "REGIME_JURIDICO").getD "")),
         jornada_trabalho := pyUpper (pyStrip ((getCell r "JORNADA_DE_TRABALHO").getD "")) }

/-- First-occurrence deduplication by a key, as `drop_duplicates(subset=k)`:
a row is kept iff its key was not seen before, scanning in order. -/
def dedupGo (key : α → β) [DecidableEq β] (seen : List β) : List α → List α
  | [] => []
  | x :: xs =>
    if key x ∈ seen then dedupGo key seen xs
    else x :: dedupGo key (key x :: seen) xs

/-- First-occurrence deduplication by a key, starting from no seen keys. -/
def dedupByKey (key : α → β) [DecidableEq β] (l : List α) : List α :=
  dedupGo key [] l

/-- The server rows kept by the `str.isnumeric()` filter on the raw id string
followed by `drop_duplicates(subset="id_servidor")` on that same string. -/
def servKeptRows (df : RawTable) : List RawRow :=
  dedupByKey (fun r => (getCell r "Id_SERVIDOR_PORTAL").getD "")
    (df.rows.filter (fun r => pyStrIsNumeric ((getCell r "Id_SERVIDOR_PORTAL").getD "")))

/-- `importar_servidores_dataframe`: required-column check, cleaning, the
`isnumeric` mask (which raises in pandas when the unfiltered id column holds
a NaN), dedup by id, `astype(int)`, then the chunk loop WITHOUT
`try/except`. -/
def importar_servidores_dataframe (df : RawTable) (store : List ServRow)
    (failAt : ℕ → Bool) : List ServRow × Except String ℕ :=
  match firstMissing servRequired df.columns with
  | some c => (store, Except.error ("Coluna ausente no CSV: " ++ c))
  | none =>
    if df.rows.any (fun r => (getCell r "Id_SERVIDOR_PORTAL").isNone) then
      (store, Except.error "cannot mask with NA values")
    else
      match (servKeptRows df).mapM normalizeServRow with
      | none => (store, Except.error "invalid literal for int")
      | some registros => loadChunksNoCatch failAt (chunksOf 1000 registros) store 0 0

/-! ## Absence importer (`importar_afastamentos_dataframe`) -/

/-- A normalized absence record as inserted into the `afastamentos` table. -/
structure AfRow where
  id_servidor : ℤ
  ano : ℤ
  mes : ℤ
  inicio_afastamento : Option PyDate
  duracao_dias : ℤ
deriving DecidableEq, Repr

/-- Expected source columns of the absence importer, in declaration order. -/
def afRequired : List String :=
  ["Id_SERVIDOR_PORTAL", "ANO", "MES", "DATA_INICIO_AFASTAMENTO"]

/-- Normalize one absence row that survived `dropna` and the `isnumeric`
filter: integer casts, date parse, and the constant `df["duracao_dias"] = 1`. -/
def normalizeAfRow (r : RawRow) : Option AfRow := do
  let idserv ← pyIntOfString ((getCell r "Id_SERVIDOR_PORTAL").getD "")
  let ano ← pyIntOfString ((getCell r "ANO").getD "")
  let mes ← pyIntOfString ((getCell r "MES").getD "")
  pure { id_servidor := idserv, ano := ano, mes := mes,
         inicio_afastamento := parse_data (getCell r "DATA_INICIO_AFASTAMENTO"),
         duracao_dias := 1 }

/-- The absence rows kept by `dropna(subset=["id_servidor","ano","mes"])` and
the `str.isnumeric()` filter on the person id. -/
def afKeptRows (df : RawTable) : List RawRow :=
  (df.rows.filter (fun r =>
      (getCell r "Id_SERVIDOR_PORTAL").isSome &&
      (getCell r "ANO").isSome && (getCell r "MES").isSome)).filter
    (fun r => pyStrIsNumeric ((getCell r "Id_SERVIDOR_PORTAL").getD ""))

/-- `importar_afastamentos_dataframe`: required-column check, filtering and
coercion (every record gets `duracao_dias = 1`), then the chunk loop WITHOUT
`try/except`. -/
def importar_afastamentos_dataframe (df : RawTable) (store : List AfRow)
    (failAt : ℕ → Bool) : List AfRow × Except String ℕ :=
  match firstMissing afRequired df.columns with
  | some c => (store, Except.error ("Coluna ausente no CSV: " ++ c))
  | none =>
    match (afKeptRows df).mapM normalizeAfRow with
    | none => (store, Except.error "invalid literal for int")
    | some registros => loadChunksNoCatch failAt (chunksOf 1000 registros) store 0 0

/-! ## Remark importer (`importar_observacoes_dataframe`) -/

/-- A normalized remark record as inserted into the `observacoes` table. -/
structure ObsRow where
  id_servidor : ℤ
  ano : ℤ
  mes : ℤ
  observacao : String
  flag_teto : Bool
deriving DecidableEq, Repr

/-- Expected source columns of the remark importer, in declaration order. -/
def obsRequired : List String :=
  ["Id_SERVIDOR_PORTAL", "ANO", "MES", "OBSERVACAO"]

/-- `df["observacao"].str.upper().str.contains("ACIMA DO TETO")`. -/
def flagTeto (s : String) : Bool :=
  decide ("ACIMA DO TETO".data <:+: (pyUpper s).data)

/-- Normalize one remark row that survived `dropna` and the `isnumeric`
filter: integer casts, text strip, and the above-ceiling flag. -/
def normalizeObsRow (r : RawRow) : Option ObsRow := do
  let idserv ← pyIntOfString ((getCell r "Id_SERVIDOR_PORTAL").getD "")
  let ano ← pyIntOfString ((getCell r "ANO").getD "")
  let mes ← pyIntOfString ((getCell r "MES").getD "")
  let texto := pyStrip ((getCell r "OBSERVACAO").getD "")
  pure { id_servidor := idserv, ano := ano, mes := mes,
         observacao := texto, flag_teto := flagTeto texto }

/-- The remark rows kept by `dropna` (which here also covers the remark text)
and the `str.isnumeric()` filter on the person id. -/
def obsKeptRows (df : RawTable) : List RawRow :=
  (df.rows.filter (fun r =>
      (getCell r "Id_SERVIDOR_PORTAL").isSome && (getCell r "ANO").isSome &&
      (getCell r "MES").isSome && (getCell r "OBSERVACAO").isSome)).filter
    (fun r => pyStrIsNumeric ((getCell r "Id_SERVIDOR_PORTAL").getD ""))

/-- `importar_observacoes_dataframe`: required-column check, filtering and
coercion, then the chunk loop WITHOUT `try/except`. -/
def importar_observacoes_dataframe (df : RawTable) (store : List ObsRow)
    (failAt : ℕ → Bool) : List ObsRow × Except String ℕ :=
  match firstMissing obsRequired df.columns with
  | some c => (store, Except.error ("Coluna ausente no CSV: " ++ c))
  | none =>
    match (obsKeptRows df).mapM normalizeObsRow with
    | none => (store, Except.error "invalid literal for int")
    | some registros => loadChunksNoCatch failAt (chunksOf 1000 registros) store 0 0

/-! ## Role-catalog importer (`importar_cargosfuncoes_dataframe`) -/

/-- `BIGINT_MAX` from the role-catalog importer. -/
def BIGINT_MAX : ℤ := 9223372036854775807

/-- `BIGINT_MIN` from the role-catalog importer. -/
def BIGINT_MIN : ℤ := -9223372036854775808

/-- A cleaned role-catalog record as inserted into the `cargofuncao` table. -/
structure CargoRow where
  classe_cargo : Option String
  referencia_cargo : Option ℤ
  padrao_cargo : Option ℤ
  nivel_cargo : Option ℤ
  funcao : Option String
  descricao_cargo : String
  nivel_funcao : Option ℤ
deriving DecidableEq, Repr

/-- Expected source columns of the role-catalog importer, in declaration
order. -/
def cargosRequired : List String :=
  ["CLASSE_CARGO", "REFERENCIA_CARGO", "PADRAO_CARGO", "NIVEL_CARGO",
   "FUNCAO", "DESCRICAO_CARGO", "NIVEL_FUNCAO"]

/-- The role-catalog importer's `limpar_str`: non-strings (NaN) become
`None`; the stripped value is dropped when its lower-casing is a
no-information sentinel or empty. -/
def limpar_str (c : Cell) : Option String :=
  match c with
  | none => none
  | some s =>
    let t := pyStrip s
    if pyLower t = "sem informação" ∨ pyLower t = "sem informaç" ∨ t = "" then none
    else some t

/-- The role-catalog importer's `limpar_int`: `float(val)` (NaN cell or parse
failure gives `None`), the sentinels `-1.0` and `0.0` give `None`, then
truncation to an integer kept only inside the signed 64-bit range (`int()`
on an infinity raises and is caught, giving `None`). -/
def limpar_int (c : Cell) : Option ℤ :=
  match c with
  | none => none
  | some s =>
    match pyFloatOfString s with
    | some (PyFloat.finite q) =>
      if q = -1 ∨ q = 0 then none
      else
        let n := pyTrunc q
        if BIGINT_MIN ≤ n ∧ n ≤ BIGINT_MAX then some n else none
    | _ => none

/-- Field cleaning of one raw role-catalog row. -/
def cleanCargoRow (r : RawRow) : CargoRow :=
  { classe_cargo := limpar_str (getCell r "CLASSE_CARGO"),
    referencia_cargo := limpar_int (getCell r "REFERENCIA_CARGO"),
    padrao_cargo := limpar_int (getCell r "PADRAO_CARGO"),
    nivel_cargo := limpar_int (getCell r "NIVEL_CARGO"),
    funcao := limpar_str (getCell r "FUNCAO"),
    descricao_cargo := pyStrip ((getCell r "DESCRICAO_CARGO").getD ""),
    nivel_funcao := limpar_int (getCell r "NIVEL_FUNCAO") }

/-- Python `str()` of a cleaned optional string field (`None` prints as the
string `None`), as produced by `.astype(str)` before the key join. -/
def pyStrOfOptStr (o : Option String) : String :=
  match o with
  | none => "None"
  | some s => s

/-- Python `str()` of a cleaned optional integer field. -/
def pyStrOfOptInt (o : Option ℤ) : String :=
  match o with
  | none => "None"
  | some n => toString n

/-- The composite logical key `chave_logica`: the seven cleaned fields,
stringified and joined with `"|"` in column order. -/
def chave_logica (c : CargoRow) : String :=
  pyStrOfOptStr c.classe_cargo ++ "|" ++ pyStrOfOptInt c.referencia_cargo ++ "|" ++
  pyStrOfOptInt c.padrao_cargo ++ "|" ++ pyStrOfOptInt c.nivel_cargo ++ "|" ++
  pyStrOfOptStr c.funcao ++ "|" ++ c.descricao_cargo ++ "|" ++
  pyStrOfOptInt c.nivel_funcao

/-- The sanitization pass over the deduplicated records: residual numeric
values outside the signed 64-bit range are coerced to `None` (the NaN and
infinity checks cannot fire on the typed cleaned record). -/
def sanitizeCargo (r : CargoRow) : CargoRow :=
  let fix := fun (o : Option ℤ) => o.bind (fun n =>
    if BIGINT_MIN ≤ n ∧ n ≤ BIGINT_MAX then some n else none)
  { r with referencia_cargo := fix r.referencia_cargo,
           padrao_cargo := fix r.padrao_cargo,
           nivel_cargo := fix r.nivel_cargo,
           nivel_funcao := fix r.nivel_funcao }

/-- The normalized, deduplicated, sanitized role-catalog batch of a
dataframe. -/
def cargosRegistros (df : RawTable) : List CargoRow :=
  (dedupByKey chave_logica (df.rows.map cleanCargoRow)).map sanitizeCargo

/-- `importar_cargosfuncoes_dataframe`: required-column check, cleaning,
within-batch dedup by `chave_logica`, sanitization, then the chunk loop WITH
`try/except` — failing chunks are rolled back and skipped, the import never
fails past the column check. -/
def importar_cargosfuncoes_dataframe (df : RawTable) (store : List CargoRow)
    (failAt : ℕ → Bool) : List CargoRow × Except String ℕ :=
  match firstMissing cargosRequired df.columns with
  | some c => (store, Except.error ("Coluna ausente no CSV: " ++ c))
  | none =>
    let out := loadChunksCatch failAt (chunksOf 1000 (cargosRegistros df)) store 0 0
    (out.1, Except.ok out.2)

/-! ## Role-assignment importer (`importar_funcaocargo_dataframe`) -/

/-- A persisted role-catalog entry as loaded by
`session.exec(select(CargoFuncao)).all()`: the cleaned fields plus the
autoincrement primary key. -/
structure CargoEntry where
  id_cargo_funcao : ℤ
  classe_cargo : Option String
  referencia_cargo : Option ℤ
  padrao_cargo : Option ℤ
  nivel_cargo : Option ℤ
  funcao : Option String
  descricao_cargo : String
  nivel_funcao : Option ℤ
deriving DecidableEq, Repr

/-- The composite lookup key used by the reconciler: the Python tuple
`(classe_cargo, padrao_cargo, nivel_cargo, descricao_cargo)`; a row's
cleaned description is optional while an entry's stored description is a
string, so the entry side is injected with `some`. -/
abbrev ChaveCargo := Option String × Option ℤ × Option ℤ × Option String

/-- The lookup key of a persisted catalog entry. -/
def entryChave (e : CargoEntry) : ChaveCargo :=
  (e.classe_cargo, e.padrao_cargo, e.nivel_cargo, some e.descricao_cargo)

/-- The in-memory catalog map `mapa_cargos`, queried with `.get`: built by
iterating the loaded entries in order and assigning
`mapa_cargos[chave] = cargo.id_cargo_funcao`, so a later entry with the same
key overwrites an earlier one. -/
def mapa_cargos_get (cargos : List CargoEntry) (chave : ChaveCargo) : Option ℤ :=
  cargos.foldl (fun acc e => if entryChave e = chave then some e.id_cargo_funcao else acc) none

/-- A resolved role-assignment record as inserted into the `funcao_cargo`
table. -/
structure FCRow where
  id_servidor : ℤ
  id_cargo_funcao : ℤ
  data_ingresso_funcao : Option PyDate
deriving DecidableEq, Repr

/-- Expected source columns of the role-assignment importer, in declaration
order. -/
def fcRequired : List String :=
  ["Id_SERVIDOR_PORTAL", "DATA_INGRESSO_CARGOFUNCAO", "CLASSE_CARGO",
   "REFERENCIA_CARGO", "PADRAO_CARGO", "NIVEL_CARGO", "FUNCAO",
   "DESCRICAO_CARGO", "NIVEL_FUNCAO"]

/-- The role-assignment importer's `limpar_valor` on a string-typed field:
NaN gives `None`; the stripped value is dropped when its lower-casing is a
sentinel (including `"-1"`) or empty. -/
def limpar_valor_str (c : Cell) : Option String :=
  match c with
  | none => none
  | some s =>
    let t := pyStrip s
    if pyLower t = "sem informação" ∨ pyLower t = "sem informaç" ∨
       pyLower t = "" ∨ pyLower t = "-1" then none
    else some t

/-- The role-assignment importer's `limpar_valor` on one of the numeric role
fields: after the sentinel check, `val.isdigit()` failures give `None` while
digit-only values go through `int(val)` — which raises an uncaught
`ValueError` (modelled as `Except.error`) on a superscript digit. -/
def limpar_valor_int (c : Cell) : Except String (Option ℤ) :=
  match c with
  | none => Except.ok none
  | some s =>
    let t := pyStrip s
    if pyLower t = "sem informação" ∨ pyLower t = "sem informaç" ∨
       pyLower t = "" ∨ pyLower t = "-1" then Except.ok none
    else if pyStrIsDigit t then
      if t.data.all Char.isDigit then Except.ok (some ((digitsToNat t : ℤ)))
      else Except.error "invalid literal for int"
    else Except.ok none

/-- The cleaned lookup key of one raw role-assignment row. -/
def fcChave (r : RawRow) (padrao nivel : Option ℤ) : ChaveCargo :=
  (limpar_valor_str (getCell r "CLASSE_CARGO"), padrao, nivel,
   limpar_valor_str (getCell r "DESCRICAO_CARGO"))

/-- Per-row resolution of the role-assignment importer: cast the person id,
clean the four key fields, look the key up in `mapa_cargos`, and — under
Python truthiness, so a zero id counts as no match — either emit the
resolved record (`.ok (some _)`) or log-and-skip the row (`.ok none`). -/
def resolveFCRow (catalog : List CargoEntry) (r : RawRow) : Except String (Option FCRow) :=
  match pyIntOfString ((getCell r "Id_SERVIDOR_PORTAL").getD "") with
  | none => Except.error "invalid literal for int"
  | some idserv =>
    match limpar_valor_int (getCell r "PADRAO_CARGO"),
          limpar_valor_int (getCell r "NIVEL_CARGO") with
    | Except.ok padrao, Except.ok nivel =>
      match mapa_cargos_get catalog (fcChave r padrao nivel) with
      | some idc =>
        if idc ≠ 0 then
          Except.ok (some { id_servidor := idserv, id_cargo_funcao := idc,
                            data_ingresso_funcao := parse_data (getCell r "DATA_INGRESSO_CARGOFUNCAO") })
        else Except.ok none
      | none => Except.ok none
    | Except.error e, _ => Except.error e
    | _, Except.error e => Except.error e

/-- The role-assignment rows kept by
`dropna(subset=["id_servidor","descricao_cargo"])` and the
`astype(str).str.isnumeric()` filter on the person id. -/
def fcKeptRows (df : RawTable) : List RawRow :=
  (df.rows.filter (fun r =>
      (getCell r "Id_SERVIDOR_PORTAL").isSome &&
      (getCell r "DESCRICAO_CARGO").isSome)).filter
    (fun r => pyStrIsNumeric ((getCell r "Id_SERVIDOR_PORTAL").getD ""))

/-- `importar_funcaocargo_dataframe`: required-column check, filtering,
per-row reconciliation against the loaded catalog, the early return when no
assignment resolved, then the chunk loop WITH `try/except`. -/
def importar_funcaocargo_dataframe (df : RawTable) (catalog : List CargoEntry)
    (store : List FCRow) (failAt : ℕ → Bool) : List FCRow × Except String ℕ :=
  match firstMissing fcRequired df.columns with
  | some c => (store, Except.error ("Coluna ausente no CSV: " ++ c))
  | none =>
    match (fcKeptRows df).mapM (resolveFCRow catalog) with
    | Except.error e => (store, Except.error e)
    | Except.ok opts =>
      let registros := opts.reduceOption
      if registros.isEmpty then (store, Except.ok 0)
      else
        let out := loadChunksCatch failAt (chunksOf 1000 registros) store 0 0
        (out.1, Except.ok out.2)

/-! ## Analytics: descriptive statistics (`_gerar_estatisticas_completas`)

The qualifying net-pay values of a year are fetched by SQL with
`remuneracao_final IS NOT NULL AND remuneracao_final > 0`; the statistics
below receive that value list. `statistics.mean/stdev/variance` compute the
exact sample statistics. -/

/-- `statistics.mean`. -/
def media_valores (valores : List ℚ) : ℚ :=
  valores.sum / (valores.length : ℚ)

/-- `statistics.variance` (sample variance, denominator `n - 1`). -/
def variancia_amostral (valores : List ℚ) : ℚ :=
  ((valores.map (fun x => (x - media_valores valores) ^ 2)).sum) / ((valores.length : ℚ) - 1)

/-- The report's `desvio_padrao` field:
`statistics.stdev(valores) if len(valores) > 1 else 0`. -/
noncomputable def desvio_padrao (valores : List ℚ) : ℝ :=
  if 1 < valores.length then Real.sqrt ((variancia_amostral valores : ℝ)) else 0

/-- The report's `variancia` field:
`statistics.variance(valores) if len(valores) > 1 else 0`. -/
def variancia (valores : List ℚ) : ℚ :=
  if 1 < valores.length then variancia_amostral valores else 0

/-- The report's `coeficiente_variacao` field:
`(stdev / mean) * 100 if len(valores) > 1 and mean > 0 else 0`. -/
noncomputable def coeficiente_variacao (valores : List ℚ) : ℝ :=
  if 1 < valores.length ∧ 0 < media_valores valores then
    Real.sqrt ((variancia_amostral valores : ℝ)) / ((media_valores valores : ℚ) : ℝ) * 100
  else 0

/-! ## Analytics: insight accumulator (`ServidorAnalytics`) -/

/-- The `InsightSummary` dataclass. -/
structure InsightSummary where
  tipo : String
  titulo : String
  valor : String
  descricao : String
  periodo : Option String
deriving DecidableEq, Repr

/-- Python truthiness of an optional numeric SQL aggregate: `None` and `0`
are falsy. -/
def truthyOptQ (o : Option ℚ) : Bool :=
  match o with
  | none => false
  | some q => decide (q ≠ 0)

/-- Round `10 * q` half-to-even to an integer, as Python float formatting of
`q` with one decimal does (exact at the values reached by the insight texts
below); computed on the numerator and denominator with integer floor
division. -/
def roundTenthsHalfEven (q : ℚ) : ℤ :=
  let d : ℤ := (q.den : ℤ)
  let m : ℤ := 10 * q.num
  let f := Int.fdiv m d
  let rem := m - f * d
  if 2 * rem < d then f
  else if d < 2 * rem then f + 1
  else if f % 2 = 0 then f else f + 1

/-- Python `f"{x:.1f}"`: one-decimal fixed-point rendering. (A negative value
rounding to zero would print as plain `0.0` here instead of `-0.0`; that
case is not reached by the statements below.) -/
def fmt1 (q : ℚ) : String :=
  let n := roundTenthsHalfEven q
  let sign := if n < 0 then "-" else ""
  let m := n.natAbs
  sign ++ toString (m / 10) ++ "." ++ toString (m % 10)

/-- The guarded ratio inside `_analise_remuneracao`:
`disparidade = stats.maxima / stats.minima if stats.minima > 0 else 0`. -/
def disparidade (maxima minima : ℚ) : ℚ :=
  if 0 < minima then maxima / minima else 0

/-- The salary-disparity step of `_analise_remuneracao`: when both the
maximum and minimum net-pay aggregates are truthy, compute the guarded
ratio and append one `InsightSummary` describing it to the accumulator;
otherwise leave the accumulator unchanged. -/
def analiseDisparidadeStep (maxima minima : Option ℚ) (ano : ℤ)
    (insights : List InsightSummary) : List InsightSummary :=
  if truthyOptQ maxima && truthyOptQ minima then
    let d := disparidade (maxima.getD 0) (minima.getD 0)
    insights ++ [{ tipo := "remuneracao", titulo := "Disparidade Salarial",
                   valor := fmt1 d ++ "x",
                   descricao := "A maior remuneração é " ++ fmt1 d ++ " vezes maior que a menor",
                   periodo := some (toString ano) }]
  else insights

/-! ## Analytics: absences (`_analise_afastamentos`) -/

/-- `total_afastamentos`: the count of absence records of the year. -/
def total_afastamentos (recs : List AfRow) (ano : ℤ) : ℕ :=
  (recs.filter (fun r => r.ano = ano)).length

/-- `total_dias_afastamento`: the summed durations of the year's absence
records. -/
def total_dias_afastamento (recs : List AfRow) (ano : ℤ) : ℤ :=
  ((recs.filter (fun r => r.ano = ano)).map (fun r => r.duracao_dias)).sum

/-! ## Helper lemmas: chunking and the two chunk loops -/

theorem chunksOfAux_flatten {α : Type _} (n : ℕ) (hn : 0 < n) :
    ∀ (fuel : ℕ) (l : List α), l.length ≤ fuel → (chunksOfAux fuel n l).flatten = l := by
  intro fuel
  induction fuel with
  | zero =>
    intro l hl
    have : l = [] := List.length_eq_zero.mp (Nat.le_zero.mp hl)
    subst this
    rfl
  | succ f ih =>
    intro l hl
    match l with
    | [] => rfl
    | x :: xs =>
      rw [chunksOfAux]
      rw [List.flatten_cons]
      rw [ih ((x :: xs).drop n) ?_]
      · exact List.take_append_drop n (x :: xs)
      · have hlen : ((x :: xs).drop n).length = (x :: xs).length - n := List.length_drop n (x :: xs)
        omega

theorem chunksOf_flatten {α : Type _} (n : ℕ) (hn : 0 < n) (l : List α) :
    (chunksOf n l).flatten = l :=
  chunksOfAux_flatten n hn l.length l le_rfl

theorem keptChunks_sublist {α : Type _} (failAt : ℕ → Bool) :
    ∀ (cs : List (List α)) (i : ℕ), List.Sublist (keptChunks failAt cs i) cs := by
  intro cs
  induction cs with
  | nil => intro i; exact List.Sublist.refl []
  | cons c cs ih =>
    intro i
    rw [keptChunks]
    by_cases h : failAt i = true
    · simp only [h, if_true]
      exact (ih (i + 1)).trans (List.sublist_cons_self c cs)
    · simp only [h, if_false]
      exact List.Sublist.cons₂ c (ih (i + 1))

theorem loadChunksCatch_eq {α : Type _} (failAt : ℕ → Bool) :
    ∀ (cs : List (List α)) (store : List α) (total i : ℕ),
      loadChunksCatch failAt cs store total i =
        (store ++ (keptChunks failAt cs i).flatten,
         total + ((keptChunks failAt cs i).map List.length).sum) := by
  intro cs
  induction cs with
  | nil => intro store total i; simp [loadChunksCatch, keptChunks]
  | cons c cs ih =>
    intro store total i
    rw [loadChunksCatch, keptChunks]
    by_cases h : failAt i = true
    · simp only [h, if_true]
      exact ih store total (i + 1)
    · simp only [h, if_false]
      rw [ih (store ++ c) (total + c.length) (i + 1)]
      simp [List.append_assoc, Nat.add_assoc, Nat.add_comm, Nat.add_left_comm]

theorem keptChunks_of_no_failure {α : Type _} :
    ∀ (cs : List (List α)) (i : ℕ), keptChunks (fun _ => false) cs i = cs := by
  intro cs
  induction cs with
  | nil => intro i; rfl
  | cons c cs ih => intro i; rw [keptChunks]; simp [ih (i + 1)]

theorem keptChunks_sizes_le {α : Type _} (failAt : ℕ → Bool) :
    ∀ (cs : List (List α)) (i : ℕ),
      ((keptChunks failAt cs i).map List.length).sum ≤ (cs.map List.length).sum := by
  intro cs
  induction cs with
  | nil => intro i; exact le_rfl
  | cons c cs ih =>
    intro i
    rw [keptChunks]
    by_cases h : failAt i = true
    · simp only [h, if_true]
      calc ((keptChunks failAt cs (i + 1)).map List.length).sum
          ≤ (cs.map List.length).sum := ih (i + 1)
        _ ≤ ((c :: cs).map List.length).sum := by simp
    · simp only [h, if_false, List.map_cons, List.sum_cons]
      exact Nat.add_le_add_left (ih (i + 1)) c.length

theorem loadChunksNoCatch_mem {α : Type _} (failAt : ℕ → Bool) :
    ∀ (cs : List (List α)) (store : List α) (total i : ℕ) (x : α),
      x ∈ (loadChunksNoCatch failAt cs store total i).1 → x ∈ store ∨ x ∈ cs.flatten := by
  intro cs
  induction cs with
  | nil => intro store total i x hx; exact Or.inl hx
  | cons c cs ih =>
    intro store total i x hx
    rw [loadChunksNoCatch] at hx
    by_cases h : failAt i = true
    · simp only [h, if_true] at hx
      exact Or.inl hx
    · simp only [h, if_false] at hx
      rcases ih (store ++ c) (total + c.length) (i + 1) x hx with hx' | hx'
      · rcases List.mem_append.mp hx' with hs | hc
        · exact Or.inl hs
        · exact Or.inr (by simp [List.flatten_cons, hc])
      · exact Or.inr (by simp [List.flatten_cons, hx'])

/-! ## Helper lemmas: the required-column check -/

theorem firstMissing_spec {required cols : List String}
    (h : ∃ c ∈ required, c ∉ cols) :
    ∃ c, firstMissing required cols = some c ∧ c ∈ required ∧ c ∉ cols := by
  obtain ⟨c, hc, hnc⟩ := h
  have hsome : (required.find? (fun c => decide (c ∉ cols))).isSome := by
    exact List.find?_isSome.mpr ⟨c, hc, by simpa using hnc⟩
  obtain ⟨c', hc'⟩ := Option.isSome_iff_exists.mp hsome
  refine ⟨c', hc', List.mem_of_find?_eq_some hc', ?_⟩
  have := List.find?_some hc'
  simpa using this

/-! ## Helper lemmas: first-occurrence deduplication -/

theorem mem_dedupGo {α β : Type _} [DecidableEq β] (key : α → β) :
    ∀ (l : List α) (seen : List β) (y : α), y ∈ dedupGo key seen l →
      key y ∉ seen ∧ l.find? (fun x => decide (key x = key y)) = some y := by
  intro l
  induction l with
  | nil => intro seen y hy; exact absurd hy (List.not_mem_nil y)
  | cons x xs ih =>
    intro seen y hy
    rw [dedupGo] at hy
    by_cases hx : key x ∈ seen
    · simp only [if_pos hx] at hy
      obtain ⟨h1, h2⟩ := ih seen y hy
      refine ⟨h1, ?_⟩
      rw [List.find?_cons_of_neg]
      · exact h2
      · simp only [decide_eq_true_eq]
        intro hxy
        exact h1 (hxy ▸ hx)
    · simp only [if_neg hx] at hy
      rcases List.mem_cons.mp hy with rfl | hy'
      · exact ⟨hx, List.find?_cons_of_pos xs (by simp)⟩
      · obtain ⟨h1, h2⟩ := ih (key x :: seen) y hy'
        have hxy : key x ≠ key y := fun he => h1 (by simp [he])
        refine ⟨fun hys => h1 (List.mem_cons_of_mem _ hys), ?_⟩
        rw [List.find?_cons_of_neg]
        · exact h2
        · simpa using fun he => hxy he

theorem pairwise_dedupGo {α β : Type _} [DecidableEq β] (key : α → β) :
    ∀ (l : List α) (seen : List β),
      (dedupGo key seen l).Pairwise (fun a b => key a ≠ key b) := by
  intro l
  induction l with
  | nil => intro seen; exact List.Pairwise.nil
  | cons x xs ih =>
    intro seen
    rw [dedupGo]
    by_cases hx : key x ∈ seen
    · simp only [if_pos hx]; exact ih seen
    · simp only [if_neg hx]
      refine List.Pairwise.cons ?_ (ih (key x :: seen))
      intro b hb
      have := (mem_dedupGo key xs (key x :: seen) b hb).1
      exact fun he => this (by simp [he])

theorem sublist_dedupGo {α β : Type _} [DecidableEq β] (key : α → β) :
    ∀ (l : List α) (seen : List β), List.Sublist (dedupGo key seen l) l := by
  intro l
  induction l with
  | nil => intro seen; exact List.Sublist.refl []
  | cons x xs ih =>
    intro seen
    rw [dedupGo]
    by_cases hx : key x ∈ seen
    · simp only [if_pos hx]
      exact (ih seen).trans (List.sublist_cons_self x xs)
    · simp only [if_neg hx]
      exact List.Sublist.cons₂ x (ih (key x :: seen))

theorem cover_dedupGo {α β : Type _} [DecidableEq β] (key : α → β) :
    ∀ (l : List α) (seen : List β) (x : α), x ∈ l →
      key x ∈ seen ∨ ∃ y ∈ dedupGo key seen l, key y = key x := by
  intro l
  induction l with
  | nil => intro seen x hx; exact absurd hx (List.not_mem_nil x)
  | cons a as ih =>
    intro seen x hx
    rw [dedupGo]
    by_cases ha : key a ∈ seen
    · simp only [if_pos ha]
      rcases List.mem_cons.mp hx with rfl | hx'
      · exact Or.inl ha
      · exact ih seen x hx'
    · simp only [if_neg ha]
      rcases List.mem_cons.mp hx with rfl | hx'
      · exact Or.inr ⟨x, List.mem_cons_self x _, rfl⟩
      · rcases ih (key a :: seen) x hx' with hs | ⟨y, hy, hky⟩
        · rcases List.mem_cons.mp hs with he | hs'
          · exact Or.inr ⟨a, List.mem_cons_self a _, he.symm⟩
          · exact Or.inl hs'
        · exact Or.inr ⟨y, List.mem_cons_of_mem a hy, hky⟩

/-! ## Helper lemmas: the in-memory catalog map -/

theorem getLast?_eq_mem {α : Type _} :
    ∀ (l : List α) (a : α), l.getLast? = some a → a ∈ l := by
  intro l
  induction l with
  | nil => intro a h; exact absurd h (by simp)
  | cons x xs ih =>
    intro a h
    match xs, h with
    | [], h => simp at h; simp [h]
    | y :: ys, h =>
      rw [List.getLast?_cons_cons] at h
      exact List.mem_cons_of_mem x (ih a h)

theorem foldl_mapa_eq {cargos : List CargoEntry} :
    ∀ (acc : Option ℤ) (k : ChaveCargo),
      cargos.foldl (fun acc e => if entryChave e = k then some e.id_cargo_funcao else acc) acc =
        match (cargos.filter (fun e => decide (entryChave e = k))).getLast? with
        | some e => some e.id_cargo_funcao
        | none => acc := by
  induction cargos with
  | nil => intro acc k; rfl
  | cons e es ih =>
    intro acc k
    rw [List.foldl_cons]
    by_cases he : entryChave e = k
    · rw [ih]
      have hfil : (e :: es).filter (fun e => decide (entryChave e = k)) =
          e :: es.filter (fun e => decide (entryChave e = k)) := by
        simp [List.filter_cons, he]
      rw [hfil, List.getLast?_cons]
      cases hlast : (es.filter (fun e => decide (entryChave e = k))).getLast? with
      | none => simp [he, hlast]
      | some y => simp [he, hlast]
    · rw [ih]
      have hfil : (e :: es).filter (fun e => decide (entryChave e = k)) =
          es.filter (fun e => decide (entryChave e = k)) := by
        simp [List.filter_cons, he]
      rw [hfil]
      simp [he]

theorem mapa_cargos_get_eq_getLast (cargos : List CargoEntry) (k : ChaveCargo) :
    mapa_cargos_get cargos k =
      ((cargos.filter (fun e => decide (entryChave e = k))).getLast?).map
        (fun e => e.id_cargo_funcao) := by
  rw [mapa_cargos_get, foldl_mapa_eq]
  cases (cargos.filter (fun e => decide (entryChave e = k))).getLast? with
  | none => rfl
  | some e => rfl

theorem mapa_cargos_get_some {cargos : List CargoEntry} {k : ChaveCargo} {i : ℤ}
    (h : mapa_cargos_get cargos k = some i) :
    ∃ e ∈ cargos, entryChave e = k ∧ e.id_cargo_funcao = i := by
  rw [mapa_cargos_get_eq_getLast] at h
  cases hlast : (cargos.filter (fun e => decide (entryChave e = k))).getLast? with
  | none => rw [hlast] at h; simp at h
  | some e =>
    rw [hlast] at h
    simp only [Option.map_some'] at h
    have hmem := getLast?_eq_mem _ _ hlast
    have hmem' := List.mem_filter.mp hmem
    exact ⟨e, hmem'.1, by simpa using hmem'.2, by simpa using h⟩

theorem mapa_cargos_get_none {cargos : List CargoEntry} {k : ChaveCargo}
    (h : ∀ e ∈ cargos, entryChave e ≠ k) :
    mapa_cargos_get cargos k = none := by
  rw [mapa_cargos_get_eq_getLast]
  have : cargos.filter (fun e => decide (entryChave e = k)) = [] := by
    rw [List.filter_eq_nil_iff]
    intro e he
    simpa using h e he
  rw [this]
  rfl

/-! ## Helper lemmas: `mapM` over `Option` -/

theorem mapM_option_forall {α β : Type _} (f : α → Option β) (P : β → Prop)
    (hf : ∀ a b, f a = some b → P b) :
    ∀ (l : List α) (res : List β), l.mapM f = some res → ∀ x ∈ res, P x := by
  intro l
  induction l with
  | nil =>
    intro res h x hx
    rw [List.mapM_nil] at h
    cases h
    exact absurd hx (List.not_mem_nil x)
  | cons a as ih =>
    intro res h x hx
    rw [List.mapM_cons] at h
    cases ha : f a with
    | none => rw [ha] at h; simp at h
    | some b =>
      rw [ha] at h
      cases has : as.mapM f with
      | none => rw [has] at h; simp at h
      | some bs =>
        rw [has] at h
        simp at h
        subst h
        rcases List.mem_cons.mp hx with rfl | hx'
        · exact hf a x ha
        · exact ih bs has x hx'

/-! ## Claim C4: missing required columns abort the import -/

/-- C4: for every importer and every input table missing at least one
expected source column, the importer raises an error identifying a missing
column before any row is normalized or persisted, and the store is returned
unchanged. -/
theorem C4_missing_column_aborts :
    (∀ (df : RawTable) (store : List ServRow) (failAt : ℕ → Bool),
      (∃ c ∈ servRequired, c ∉ df.columns) →
      ∃ c, c ∈ servRequired ∧ c ∉ df.columns ∧
        importar_servidores_dataframe df store failAt =
          (store, Except.error ("Coluna ausente no CSV: " ++ c)))
    ∧ (∀ (df : RawTable) (store : List RemRow) (failAt : ℕ → Bool),
      (∃ c ∈ remRequired, c ∉ df.columns) →
      ∃ c, c ∈ remRequired ∧ c ∉ df.columns ∧
        importar_remuneracoes_dataframe df store failAt =
          (store, Except.error ("Coluna ausente no CSV: " ++ c)))
    ∧ (∀ (df : RawTable) (store : List AfRow) (failAt : ℕ → Bool),
      (∃ c ∈ afRequired, c ∉ df.columns) →
      ∃ c, c ∈ afRequired ∧ c ∉ df.columns ∧
        importar_afastamentos_dataframe df store failAt =
          (store, Except.error ("Coluna ausente no CSV: " ++ c)))
    ∧ (∀ (df : RawTable) (store : List ObsRow) (failAt : ℕ → Bool),
      (∃ c ∈ obsRequired, c ∉ df.columns) →
      ∃ c, c ∈ obsRequired ∧ c ∉ df.columns ∧
        importar_observacoes_dataframe df store failAt =
          (store, Except.error ("Coluna ausente no CSV: " ++ c)))
    ∧ (∀ (df : RawTable) (store : List CargoRow) (failAt : ℕ → Bool),
      (∃ c ∈ cargosRequired, c ∉ df.columns) →
      ∃ c, c ∈ cargosRequired ∧ c ∉ df.columns ∧
        importar_cargosfuncoes_dataframe df store failAt =
          (store, Except.error ("Coluna ausente no CSV: " ++ c)))
    ∧ (∀ (df : RawTable) (catalog : List CargoEntry) (store : List FCRow) (failAt : ℕ → Bool),
      (∃ c ∈ fcRequired, c ∉ df.columns) →
      ∃ c, c ∈ fcRequired ∧ c ∉ df.columns ∧
        importar_funcaocargo_dataframe df catalog store failAt =
          (store, Except.error ("Coluna ausente no CSV: " ++ c))) := by
  refine ⟨?_, ?_, ?_, ?_, ?_, ?_⟩
  · intro df store failAt h
    obtain ⟨c, hfm, hc, hnc⟩ := firstMissing_spec h
    exact ⟨c, hc, hnc, by simp only [importar_servidores_dataframe, hfm]⟩
  · intro df store failAt h
    obtain ⟨c, hfm, hc, hnc⟩ := firstMissing_spec h
    exact ⟨c, hc, hnc, by simp only [importar_remuneracoes_dataframe, hfm]⟩
  · intro df store failAt h
    obtain ⟨c, hfm, hc, hnc⟩ := firstMissing_spec h
    exact ⟨c, hc, hnc, by simp only [importar_afastamentos_dataframe, hfm]⟩
  · intro df store failAt h
    obtain ⟨c, hfm, hc, hnc⟩ := firstMissing_spec h
    exact ⟨c, hc, hnc, by simp only [importar_observacoes_dataframe, hfm]⟩
  · intro df store failAt h
    obtain ⟨c, hfm, hc, hnc⟩ := firstMissing_spec h
    exact ⟨c, hc, hnc, by simp only [importar_cargosfuncoes_dataframe, hfm]⟩
  · intro df catalog store failAt h
    obtain ⟨c, hfm, hc, hnc⟩ := firstMissing_spec h
    exact ⟨c, hc, hnc, by simp only [importar_funcaocargo_dataframe, hfm]⟩

/-- C4 witness: the pay importer on a table exposing only the `ANO` column
errors out naming a missing column and leaves the empty store unchanged. -/
theorem C4_missing_column_aborts_witness :
    ∃ c, c ∈ remRequired ∧ c ∉ (["ANO"] : List String) ∧
      importar_remuneracoes_dataframe ⟨["ANO"], []⟩ [] (fun _ => false) =
        ([], Except.error ("Coluna ausente no CSV: " ++ c)) :=
  C4_missing_column_aborts.2.1 ⟨["ANO"], []⟩ [] (fun _ => false)
    ⟨"Id_SERVIDOR_PORTAL", by decide, by decide⟩

/-! ## Claim C1: chunk-level failure handling -/

theorem chunksOf_cons_head {α : Type _} (n : ℕ) (x : α) (xs : List α) :
    chunksOf n (x :: xs) =
      (x :: xs).take n :: chunksOfAux xs.length n ((x :: xs).drop n) := rfl

theorem loadChunksNoCatch_error_snd {α : Type _} (failAt : ℕ → Bool) :
    ∀ (cs : List (List α)) (store : List α) (total i : ℕ),
      (∃ j, j < cs.length ∧ failAt (i + j) = true) →
      (loadChunksNoCatch failAt cs store total i).2 = Except.error "chunk insert failed" := by
  intro cs
  induction cs with
  | nil =>
    intro store total i h
    obtain ⟨j, hj, _⟩ := h
    simp at hj
  | cons c cs ih =>
    intro store total i h
    rw [loadChunksNoCatch]
    by_cases hi : failAt i = true
    · simp [hi]
    · rw [if_neg hi]
      obtain ⟨j, hj, hfj⟩ := h
      cases j with
      | zero =>
        rw [Nat.add_zero] at hfj
        exact absurd hfj hi
      | succ k =>
        refine ih (store ++ c) (total + c.length) (i + 1) ⟨k, ?_, ?_⟩
        · simp only [List.length_cons] at hj
          omega
        · rw [show i + 1 + k = i + (k + 1) from by omega]
          exact hfj

/-- C1 (amended): only the role-catalog and role-assignment importers wrap
each chunk commit in `try/except`. For those two, a store-level chunk
failure rolls back just that chunk and the loader continues: the importer
never fails past the column check, the store receives exactly the
successfully committed chunks, and the returned total is the sum of their
sizes — at most the number of normalized records. The server, pay, absence
and remark importers have no such handler: whenever any chunk of the
normalized batch fails, the whole call errors out instead of returning a
committed total. -/
theorem C1_chunk_failure_handling :
    (∀ (df : RawTable) (store : List CargoRow) (failAt : ℕ → Bool),
      firstMissing cargosRequired df.columns = none →
      importar_cargosfuncoes_dataframe df store failAt =
        (store ++ (keptChunks failAt (chunksOf 1000 (cargosRegistros df)) 0).flatten,
         Except.ok ((keptChunks failAt (chunksOf 1000 (cargosRegistros df)) 0).map List.length).sum) ∧
      ((keptChunks failAt (chunksOf 1000 (cargosRegistros df)) 0).map List.length).sum ≤
        (cargosRegistros df).length)
    ∧ (∀ (df : RawTable) (catalog : List CargoEntry) (store : List FCRow)
        (failAt : ℕ → Bool) (opts : List (Option FCRow)),
      firstMissing fcRequired df.columns = none →
      (fcKeptRows df).mapM (resolveFCRow catalog) = Except.ok opts →
      importar_funcaocargo_dataframe df catalog store failAt =
        (store ++ (keptChunks failAt (chunksOf 1000 opts.reduceOption) 0).flatten,
         Except.ok ((keptChunks failAt (chunksOf 1000 opts.reduceOption) 0).map List.length).sum) ∧
      ((keptChunks failAt (chunksOf 1000 opts.reduceOption) 0).map List.length).sum ≤
        opts.reduceOption.length)
    ∧ (∀ (df : RawTable) (store : List ServRow) (failAt : ℕ → Bool)
        (registros : List ServRow),
      firstMissing servRequired df.columns = none →
      df.rows.any (fun r => (getCell r "Id_SERVIDOR_PORTAL").isNone) = false →
      (servKeptRows df).mapM normalizeServRow = some registros →
      (∃ j, j < (chunksOf 1000 registros).length ∧ failAt j = true) →
      (importar_servidores_dataframe df store failAt).2 =
        Except.error "chunk insert failed")
    ∧ (∀ (df : RawTable) (store : List RemRow) (failAt : ℕ → Bool)
        (registros : List RemRow),
      firstMissing remRequired df.columns = none →
      (remKeptRows df).mapM normalizeRemRow = some registros →
      (∃ j, j < (chunksOf 1000 registros).length ∧ failAt j = true) →
      (importar_remuneracoes_dataframe df store failAt).2 =
        Except.error "chunk insert failed")
    ∧ (∀ (df : RawTable) (store : List AfRow) (failAt : ℕ → Bool)
        (registros : List AfRow),
      firstMissing afRequired df.columns = none →
      (afKeptRows df).mapM normalizeAfRow = some registros →
      (∃ j, j < (chunksOf 1000 registros).length ∧ failAt j = true) →
      (importar_afastamentos_dataframe df store failAt).2 =
        Except.error "chunk insert failed")
    ∧ (∀ (df : RawTable) (store : List ObsRow) (failAt : ℕ → Bool)
        (registros : List ObsRow),
      firstMissing obsRequired df.columns = none →
      (obsKeptRows df).mapM normalizeObsRow = some registros →
      (∃ j, j < (chunksOf 1000 registros).length ∧ failAt j = true) →
      (importar_observacoes_dataframe df store failAt).2 =
        Except.error "chunk insert failed") := by
  refine ⟨?_, ?_, ?_, ?_, ?_, ?_⟩
  · intro df store failAt hcols
    have hsize : ((keptChunks failAt (chunksOf 1000 (cargosRegistros df)) 0).map List.length).sum ≤
        (cargosRegistros df).length := by
      calc ((keptChunks failAt (chunksOf 1000 (cargosRegistros df)) 0).map List.length).sum
          ≤ ((chunksOf 1000 (cargosRegistros df)).map List.length).sum :=
            keptChunks_sizes_le failAt _ 0
        _ = (chunksOf 1000 (cargosRegistros df)).flatten.length := (List.length_flatten _).symm
        _ = (cargosRegistros df).length := by rw [chunksOf_flatten 1000 (by norm_num)]
    refine ⟨?_, hsize⟩
    simp only [importar_cargosfuncoes_dataframe, hcols]
    rw [loadChunksCatch_eq]
    simp
  · intro df catalog store failAt opts hcols hmapm
    have hsize : ((keptChunks failAt (chunksOf 1000 opts.reduceOption) 0).map List.length).sum ≤
        opts.reduceOption.length := by
      calc ((keptChunks failAt (chunksOf 1000 opts.reduceOption) 0).map List.length).sum
          ≤ ((chunksOf 1000 opts.reduceOption).map List.length).sum :=
            keptChunks_sizes_le failAt _ 0
        _ = (chunksOf 1000 opts.reduceOption).flatten.length := (List.length_flatten _).symm
        _ = opts.reduceOption.length := by rw [chunksOf_flatten 1000 (by norm_num)]
    refine ⟨?_, hsize⟩
    simp only [importar_funcaocargo_dataframe, hcols, hmapm]
    by_cases hemp : opts.reduceOption.isEmpty
    · have hnil : opts.reduceOption = [] := List.isEmpty_iff.mp hemp
      simp [hemp, hnil, chunksOf, chunksOfAux, keptChunks]
    · simp only [hemp, if_false, Bool.false_eq_true]
      rw [loadChunksCatch_eq]
      simp
  · intro df store failAt registros hcols hnan hmapm hfail
    simp only [importar_servidores_dataframe, hcols, hnan, Bool.false_eq_true, if_false, hmapm]
    refine loadChunksNoCatch_error_snd failAt _ store 0 0 ?_
    obtain ⟨j, hj, hfj⟩ := hfail
    exact ⟨j, hj, by simpa using hfj⟩
  · intro df store failAt registros hcols hmapm hfail
    simp only [importar_remuneracoes_dataframe, hcols, hmapm]
    refine loadChunksNoCatch_error_snd failAt _ store 0 0 ?_
    obtain ⟨j, hj, hfj⟩ := hfail
    exact ⟨j, hj, by simpa using hfj⟩
  · intro df store failAt registros hcols hmapm hfail
    simp only [importar_afastamentos_dataframe, hcols, hmapm]
    refine loadChunksNoCatch_error_snd failAt _ store 0 0 ?_
    obtain ⟨j, hj, hfj⟩ := hfail
    exact ⟨j, hj, by simpa using hfj⟩
  · intro df store failAt registros hcols hmapm hfail
    simp only [importar_observacoes_dataframe, hcols, hmapm]
    refine loadChunksNoCatch_error_snd failAt _ store 0 0 ?_
    obtain ⟨j, hj, hfj⟩ := hfail
    exact ⟨j, hj, by simpa using hfj⟩

/-- C1 counterexample: the pay importer, fed one valid row and a store that
fails the first chunk, aborts with an error instead of logging, rolling back
and returning the committed total — so the claim does not hold of every
importer. -/
theorem C1_counterexample :
    importar_remuneracoes_dataframe
      ⟨remRequired,
       [[("Id_SERVIDOR_PORTAL", some "1"), ("ANO", some "2023"), ("MES", some "1"),
         ("REMUNERAÇÃO BÁSICA BRUTA (R$)", some "0,00"), ("IRRF (R$)", some "0,00"),
         ("PSS/RPGS (R$)", some "0,00"),
         ("REMUNERAÇÃO APÓS DEDUÇÕES OBRIGATÓRIAS (R$)", some "0,00")]]⟩
      [] (fun _ => true) =
      ([], Except.error "chunk insert failed") := by
  rfl

/-- C1 witness: the role-catalog importer on a batch of two records whose
single chunk fails commits nothing and still returns successfully with total
zero. -/
theorem C1_chunk_failure_handling_witness :
    importar_cargosfuncoes_dataframe
      ⟨cargosRequired,
       [[("CLASSE_CARGO", some "A"), ("DESCRICAO_CARGO", some "X")],
        [("CLASSE_CARGO", some "B"), ("DESCRICAO_CARGO", some "Y")]]⟩
      [] (fun _ => true) = ([], Except.ok 0) := by
  have h := (C1_chunk_failure_handling.1
    ⟨cargosRequired,
     [[("CLASSE_CARGO", some "A"), ("DESCRICAO_CARGO", some "X")],
      [("CLASSE_CARGO", some "B"), ("DESCRICAO_CARGO", some "Y")]]⟩
    [] (fun _ => true) (by rfl)).1
  exact h.trans (by rfl)


/-! ## Claim C9: every imported absence lasts exactly one day -/

theorem normalizeAfRow_duracao (r : RawRow) (rec : AfRow)
    (h : normalizeAfRow r = some rec) : rec.duracao_dias = 1 := by
  simp only [normalizeAfRow, Option.bind_eq_bind, Option.bind_eq_some, Option.pure_def,
    Option.some.injEq] at h
  obtain ⟨i1, h1, i2, h2, i3, h3, hrec⟩ := h
  rw [← hrec]

/-- C9: the absence importer reads no duration column and sets
`duracao_dias = 1` on every normalized record, so every record it adds to
the store has duration one day; consequently the analytics engine's total
absence-days for a year equals its total absence count for that year over
data produced solely by this importer. -/
theorem C9_absence_duration_one :
    (∀ (r : RawRow) (rec : AfRow), normalizeAfRow r = some rec → rec.duracao_dias = 1)
    ∧ (∀ (df : RawTable) (store : List AfRow) (failAt : ℕ → Bool) (x : AfRow),
        x ∈ (importar_afastamentos_dataframe df store failAt).1 →
        x ∈ store ∨ x.duracao_dias = 1)
    ∧ (∀ (recs : List AfRow) (ano : ℤ),
        (∀ r ∈ recs, r.duracao_dias = 1) →
        total_dias_afastamento recs ano = (total_afastamentos recs ano : ℤ)) := by
  refine ⟨normalizeAfRow_duracao, ?_, ?_⟩
  · intro df store failAt x hx
    rw [importar_afastamentos_dataframe] at hx
    cases hcols : firstMissing afRequired df.columns with
    | some c => rw [hcols] at hx; exact Or.inl hx
    | none =>
      rw [hcols] at hx
      cases hmapm : (afKeptRows df).mapM normalizeAfRow with
      | none => rw [hmapm] at hx; exact Or.inl hx
      | some registros =>
        rw [hmapm] at hx
        rcases loadChunksNoCatch_mem failAt _ store 0 0 x hx with hs | hf
        · exact Or.inl hs
        · right
          have hx' : x ∈ registros := by
            rw [chunksOf_flatten 1000 (by norm_num) registros] at hf
            exact hf
          exact mapM_option_forall normalizeAfRow (fun y => y.duracao_dias = 1)
            (fun a b hab => normalizeAfRow_duracao a b hab) _ registros hmapm x hx'
  · intro recs ano h
    rw [total_dias_afastamento, total_afastamentos]
    have h1 : ∀ r ∈ recs.filter (fun r => decide (r.ano = ano)), r.duracao_dias = 1 :=
      fun r hr => h r (List.mem_filter.mp hr).1
    generalize hfil : recs.filter (fun r => decide (r.ano = ano)) = l at h1
    clear hfil h
    induction l with
    | nil => simp
    | cons a as ih =>
      have ha : a.duracao_dias = 1 := h1 a (List.mem_cons_self a as)
      have has : ∀ r ∈ as, r.duracao_dias = 1 :=
        fun r hr => h1 r (List.mem_cons_of_mem a hr)
      simp only [List.map_cons, List.sum_cons, List.length_cons, ha, ih has]
      push_cast
      omega

/-- C9 witness: a single one-day absence record in 2023 contributes one day
and one count, so the two totals agree. -/
theorem C9_absence_duration_one_witness :
    total_dias_afastamento [⟨7, 2023, 1, none, 1⟩] 2023 =
      (total_afastamentos [⟨7, 2023, 1, none, 1⟩] 2023 : ℤ) :=
  C9_absence_duration_one.2.2 [⟨7, 2023, 1, none, 1⟩] 2023 (by decide)

/-! ## Claim C5: digit-only person-id filtering -/

/-- C5 (failing input): the person-id filter is Python `str.isnumeric`,
which accepts the Latin-1 superscript `"²"` although it is not a decimal
digit; the kept row then reaches `astype(int)`, whose `ValueError` aborts
the whole pay import — the row is not merely excluded from the output as
the claim states. -/
theorem C5_superscript_id_aborts_import :
    pyStrIsNumeric "²" = true
    ∧ pyIntOfString "²" = none
    ∧ importar_remuneracoes_dataframe
        ⟨remRequired,
         [[("Id_SERVIDOR_PORTAL", some "²"), ("ANO", some "2023"), ("MES", some "1"),
           ("REMUNERAÇÃO BÁSICA BRUTA (R$)", some "0,00"), ("IRRF (R$)", some "0,00"),
           ("PSS/RPGS (R$)", some "0,00"),
           ("REMUNERAÇÃO APÓS DEDUÇÕES OBRIGATÓRIAS (R$)", some "0,00")]]⟩
        [] (fun _ => false) =
        ([], Except.error "invalid literal for int") :=
  ⟨rfl, rfl, rfl⟩

/-! ## Claim C6: localized currency parsing -/

/-- C6: the currency parser treats `"."` as the thousands separator and
`","` as the decimal separator, mapping `"1.234,56"` to `1234.56` and
`"0,00"` to `0.0`, and maps missing (filled with `"0,00"`), empty, and
unparsable values to `0.0` without raising. -/
theorem C6_currency_parsing :
    to_float "1.234,56" = PyFloat.finite (1234.56 : ℚ)
    ∧ to_float "0,00" = PyFloat.finite 0
    ∧ to_float_cell none = PyFloat.finite 0
    ∧ to_float "" = PyFloat.finite 0
    ∧ ∀ s : String, pyFloatOfString (swapSeps s) = none → to_float s = PyFloat.finite 0 := by
  refine ⟨?_, ?_, ?_, rfl, ?_⟩
  · have h : to_float "1.234,56" =
        PyFloat.finite (((1234 : ℕ) : ℚ) + ((56 : ℕ) : ℚ) / (10 : ℚ) ^ (2 : ℕ)) := rfl
    rw [h]
    norm_num
  · have h : to_float "0,00" =
        PyFloat.finite (((0 : ℕ) : ℚ) + ((0 : ℕ) : ℚ) / (10 : ℚ) ^ (2 : ℕ)) := rfl
    rw [h]
    norm_num
  · have h : to_float_cell none =
        PyFloat.finite (((0 : ℕ) : ℚ) + ((0 : ℕ) : ℚ) / (10 : ℚ) ^ (2 : ℕ)) := rfl
    rw [h]
    norm_num
  · intro s h
    rw [to_float, h]

/-- C6 witness: the alphabetic string `"abc"` fails the float parse after
separator swapping and therefore maps to zero. -/
theorem C6_currency_parsing_witness :
    pyFloatOfString (swapSeps "abc") = none ∧ to_float "abc" = PyFloat.finite 0 :=
  ⟨by decide, C6_currency_parsing.2.2.2.2 "abc" (by decide)⟩

/-! ## Claim C7: coefficient of variation -/

/-- C7: over a year's positive net-pay values, the coefficient of variation
equals sample standard deviation divided by the mean times 100 whenever at
least two values exist, and is 0 with fewer than two values (as are the
sample standard deviation and variance fields) and whenever the mean is 0;
the computation is total, never raising. -/
theorem C7_coeficiente_variacao (valores : List ℚ) (hpos : ∀ x ∈ valores, 0 < x) :
    (valores.length < 2 →
      coeficiente_variacao valores = 0 ∧ desvio_padrao valores = 0 ∧ variancia valores = 0)
    ∧ (2 ≤ valores.length →
      coeficiente_variacao valores =
        desvio_padrao valores / ((media_valores valores : ℚ) : ℝ) * 100)
    ∧ (media_valores valores = 0 → coeficiente_variacao valores = 0) := by
  refine ⟨?_, ?_, ?_⟩
  · intro hlen
    have h1 : ¬ 1 < valores.length := by omega
    refine ⟨?_, ?_, ?_⟩
    · rw [coeficiente_variacao, if_neg]
      intro hc
      exact h1 hc.1
    · rw [desvio_padrao, if_neg h1]
    · rw [variancia, if_neg h1]
  · intro hlen
    have h1 : 1 < valores.length := by omega
    have hne : valores ≠ [] := by
      intro hnil
      rw [hnil] at hlen
      simp at hlen
    have hsum : 0 < valores.sum := List.sum_pos valores hpos hne
    have hlenq : (0 : ℚ) < (valores.length : ℚ) := by
      have : 0 < valores.length := by omega
      exact_mod_cast this
    have hmed : 0 < media_valores valores := by
      rw [media_valores]
      exact div_pos hsum hlenq
    rw [coeficiente_variacao, if_pos ⟨h1, hmed⟩, desvio_padrao, if_pos h1]
  · intro hmed
    rw [coeficiente_variacao, if_neg]
    intro hc
    rw [hmed] at hc
    exact lt_irrefl 0 hc.2

/-- C7 witness: on the two positive values 3 and 5 the coefficient of
variation equals the standard deviation over the mean times 100. -/
theorem C7_coeficiente_variacao_witness :
    (∀ x ∈ [(3 : ℚ), 5], 0 < x) ∧
    coeficiente_variacao [(3 : ℚ), 5] =
      desvio_padrao [(3 : ℚ), 5] / ((media_valores [(3 : ℚ), 5] : ℚ) : ℝ) * 100 :=
  ⟨by norm_num, (C7_coeficiente_variacao [(3 : ℚ), 5] (by norm_num)).2.1 (by norm_num)⟩

/-! ## Claim C8: the salary-disparity insight -/

/-- C8 counterexample: with a truthy maximum 10 and a truthy negative
minimum −5 the code appends the insight but derives the guarded ratio 0, not
max divided by min (which is −2): the derived ratio equals max/min only when
the minimum is positive. -/
theorem C8_counterexample :
    truthyOptQ (some (10 : ℚ)) = true
    ∧ truthyOptQ (some (-5 : ℚ)) = true
    ∧ analiseDisparidadeStep (some 10) (some (-5)) 2023 [] =
        [⟨"remuneracao", "Disparidade Salarial", "0.0x",
          "A maior remuneração é 0.0 vezes maior que a menor", some "2023"⟩]
    ∧ (10 : ℚ) / (-5 : ℚ) ≠ 0 :=
  ⟨by decide, by decide, by decide, by norm_num⟩

/-- C8 (amended): when both extremes are truthy and the minimum is positive,
the disparity ratio max/min is derived and exactly one insight describing it
is appended; for max 9000 and min 1500 the ratio renders as 6.0 and the
insight text contains it; when either extreme is zero or absent no insight
is appended; when both are truthy but the minimum is negative, one insight
is still appended but with the guarded ratio 0 instead of max/min. -/
theorem C8_disparity_insight :
    (∀ (mx mn : ℚ) (ano : ℤ) (ins : List InsightSummary),
      mx ≠ 0 → 0 < mn →
      analiseDisparidadeStep (some mx) (some mn) ano ins =
        ins ++ [⟨"remuneracao", "Disparidade Salarial", fmt1 (mx / mn) ++ "x",
                 "A maior remuneração é " ++ fmt1 (mx / mn) ++ " vezes maior que a menor",
                 some (toString ano)⟩])
    ∧ (∀ (mx mn : ℚ) (ano : ℤ) (ins : List InsightSummary),
      mx ≠ 0 → mn < 0 →
      analiseDisparidadeStep (some mx) (some mn) ano ins =
        ins ++ [⟨"remuneracao", "Disparidade Salarial", fmt1 0 ++ "x",
                 "A maior remuneração é " ++ fmt1 0 ++ " vezes maior que a menor",
                 some (toString ano)⟩])
    ∧ (∀ (mn : Option ℚ) (ano : ℤ) (ins : List InsightSummary),
        analiseDisparidadeStep none mn ano ins = ins)
    ∧ (∀ (mx : Option ℚ) (ano : ℤ) (ins : List InsightSummary),
        analiseDisparidadeStep mx none ano ins = ins)
    ∧ (∀ (mn : Option ℚ) (ano : ℤ) (ins : List InsightSummary),
        analiseDisparidadeStep (some 0) mn ano ins = ins)
    ∧ (∀ (mx : Option ℚ) (ano : ℤ) (ins : List InsightSummary),
        analiseDisparidadeStep mx (some 0) ano ins = ins)
    ∧ fmt1 ((9000 : ℚ) / 1500) = "6.0"
    ∧ "6.0".data <:+:
        ("A maior remuneração é " ++ fmt1 ((9000 : ℚ) / 1500) ++ " vezes maior que a menor").data := by
  have h6 : (9000 : ℚ) / 1500 = 6 := by norm_num
  refine ⟨?_, ?_, ?_, ?_, ?_, ?_, ?_, ?_⟩
  · intro mx mn ano ins hmx hmn
    have hmn' : mn ≠ 0 := ne_of_gt hmn
    rw [analiseDisparidadeStep]
    rw [if_pos (show (truthyOptQ (some mx) && truthyOptQ (some mn)) = true by
      simp [truthyOptQ, hmx, hmn'])]
    simp only [Option.getD_some]
    rw [disparidade, if_pos hmn]
  · intro mx mn ano ins hmx hmn
    have hmn' : mn ≠ 0 := ne_of_lt hmn
    have hnpos : ¬ 0 < mn := by
      intro hc
      exact absurd (lt_trans hmn hc) (lt_irrefl mn)
    rw [analiseDisparidadeStep]
    rw [if_pos (show (truthyOptQ (some mx) && truthyOptQ (some mn)) = true by
      simp [truthyOptQ, hmx, hmn'])]
    simp only [Option.getD_some]
    rw [disparidade, if_neg hnpos]
  · intro mn ano ins
    rw [analiseDisparidadeStep]
    simp [truthyOptQ]
  · intro mx ano ins
    rw [analiseDisparidadeStep]
    simp [truthyOptQ]
  · intro mn ano ins
    rw [analiseDisparidadeStep]
    simp [truthyOptQ]
  · intro mx ano ins
    rw [analiseDisparidadeStep]
    simp [truthyOptQ]
  · rw [h6]
    decide
  · rw [h6]
    decide

/-- C8 witness: at maximum 9000 and minimum 1500 exactly one insight is
appended and its rendered ratio is 6.0. -/
theorem C8_disparity_insight_witness :
    analiseDisparidadeStep (some 9000) (some 1500) 2023 [] =
      [⟨"remuneracao", "Disparidade Salarial", "6.0x",
        "A maior remuneração é 6.0 vezes maior que a menor", some "2023"⟩] := by
  have h := C8_disparity_insight.1 9000 1500 2023 [] (by norm_num) (by norm_num)
  rw [h]
  have h6 : (9000 : ℚ) / 1500 = 6 := by norm_num
  rw [h6]
  decide

/-! ## Helper lemmas: per-row role-assignment resolution -/

theorem resolveFCRow_of_match {catalog : List CargoEntry} {r : RawRow}
    {idserv : ℤ} {padrao nivel : Option ℤ} {i : ℤ}
    (h1 : pyIntOfString ((getCell r "Id_SERVIDOR_PORTAL").getD "") = some idserv)
    (h2 : limpar_valor_int (getCell r "PADRAO_CARGO") = Except.ok padrao)
    (h3 : limpar_valor_int (getCell r "NIVEL_CARGO") = Except.ok nivel)
    (hm : mapa_cargos_get catalog (fcChave r padrao nivel) = some i)
    (hi : i ≠ 0) :
    resolveFCRow catalog r = Except.ok (some ⟨idserv, i,
      parse_data (getCell r "DATA_INGRESSO_CARGOFUNCAO")⟩) := by
  simp only [resolveFCRow, h1, h2, h3, hm]
  simp [hi]

theorem resolveFCRow_of_nomatch {catalog : List CargoEntry} {r : RawRow}
    {idserv : ℤ} {padrao nivel : Option ℤ}
    (h1 : pyIntOfString ((getCell r "Id_SERVIDOR_PORTAL").getD "") = some idserv)
    (h2 : limpar_valor_int (getCell r "PADRAO_CARGO") = Except.ok padrao)
    (h3 : limpar_valor_int (getCell r "NIVEL_CARGO") = Except.ok nivel)
    (hm : mapa_cargos_get catalog (fcChave r padrao nivel) = none) :
    resolveFCRow catalog r = Except.ok none := by
  simp only [resolveFCRow, h1, h2, h3, hm]

theorem importar_funcaocargo_no_failure {df : RawTable} {catalog : List CargoEntry}
    {store : List FCRow} {opts : List (Option FCRow)}
    (hcols : firstMissing fcRequired df.columns = none)
    (hmapm : (fcKeptRows df).mapM (resolveFCRow catalog) = Except.ok opts) :
    importar_funcaocargo_dataframe df catalog store (fun _ => false) =
      (store ++ opts.reduceOption, Except.ok opts.reduceOption.length) := by
  simp only [importar_funcaocargo_dataframe, hcols, hmapm]
  have hflat := chunksOf_flatten 1000 (by norm_num) opts.reduceOption
  have hlen : ((chunksOf 1000 opts.reduceOption).map List.length).sum =
      opts.reduceOption.length := by
    rw [← List.length_flatten, hflat]
  by_cases hemp : opts.reduceOption.isEmpty
  · have hnil : opts.reduceOption = [] := List.isEmpty_iff.mp hemp
    simp [hemp, hnil]
  · simp only [hemp, if_false, Bool.false_eq_true]
    rw [loadChunksCatch_eq, keptChunks_of_no_failure, hflat, hlen]
    simp

/-! ## Claim C2: role-assignment rows are reconciled against the catalog -/

/-- C2: for a normalized role-assignment row whose cleaned person id and
numeric fields parse, if no catalog entry's (class, standard, level,
description) tuple equals the row's cleaned tuple, the row resolves to
nothing (it is dropped with a warning and the import keeps going); if the
lookup map yields an entry id (all persisted ids being positive), the row
resolves to the record carrying the person id, that catalog id and the
parsed assignment date; with a healthy store the importer persists exactly
the resolved records and returns their count. -/
theorem C2_roleassignment_reconciliation :
    (∀ (catalog : List CargoEntry), (∀ e ∈ catalog, 0 < e.id_cargo_funcao) →
      ∀ (r : RawRow) (idserv : ℤ) (padrao nivel : Option ℤ),
        pyIntOfString ((getCell r "Id_SERVIDOR_PORTAL").getD "") = some idserv →
        limpar_valor_int (getCell r "PADRAO_CARGO") = Except.ok padrao →
        limpar_valor_int (getCell r "NIVEL_CARGO") = Except.ok nivel →
        ((∀ e ∈ catalog, entryChave e ≠ fcChave r padrao nivel) →
          resolveFCRow catalog r = Except.ok none)
        ∧ (∀ i, mapa_cargos_get catalog (fcChave r padrao nivel) = some i →
          resolveFCRow catalog r = Except.ok (some ⟨idserv, i,
            parse_data (getCell r "DATA_INGRESSO_CARGOFUNCAO")⟩)))
    ∧ (∀ (df : RawTable) (catalog : List CargoEntry) (store : List FCRow)
        (opts : List (Option FCRow)),
        firstMissing fcRequired df.columns = none →
        (fcKeptRows df).mapM (resolveFCRow catalog) = Except.ok opts →
        importar_funcaocargo_dataframe df catalog store (fun _ => false) =
          (store ++ opts.reduceOption, Except.ok opts.reduceOption.length)) := by
  refine ⟨?_, ?_⟩
  · intro catalog hpos r idserv padrao nivel h1 h2 h3
    refine ⟨?_, ?_⟩
    · intro hnm
      exact resolveFCRow_of_nomatch h1 h2 h3 (mapa_cargos_get_none hnm)
    · intro i hm
      obtain ⟨e, he, _, hid⟩ := mapa_cargos_get_some hm
      have hi : i ≠ 0 := by
        have := hpos e he
        omega
      exact resolveFCRow_of_match h1 h2 h3 hm hi
  · intro df catalog store opts hcols hmapm
    exact importar_funcaocargo_no_failure hcols hmapm

/-- C2 witness: a one-entry catalog with id 5 resolves a matching row of
person 7 to the record referencing catalog id 5. -/
theorem C2_roleassignment_reconciliation_witness :
    resolveFCRow [⟨5, some "A", none, none, none, none, "DESC", none⟩]
      [("Id_SERVIDOR_PORTAL", some "7"), ("CLASSE_CARGO", some "A"),
       ("DESCRICAO_CARGO", some "DESC")] =
      Except.ok (some ⟨7, 5, none⟩) := by
  have h := (C2_roleassignment_reconciliation.1
    [⟨5, some "A", none, none, none, none, "DESC", none⟩] (by decide)
    [("Id_SERVIDOR_PORTAL", some "7"), ("CLASSE_CARGO", some "A"),
     ("DESCRICAO_CARGO", some "DESC")] 7 none none rfl rfl rfl).2
    5 rfl
  exact h

/-! ## Claim C10: duplicate catalog tuples resolve to the last-loaded id -/

/-- C10: the in-memory lookup map built by iterating the loaded catalog
binds each (class, standard, level, description) tuple to the id of the
entry iterated last among those sharing the tuple — so when the persisted
catalog holds several entries with an equal tuple (possible, since catalog
dedup keys on seven fields), every role-assignment row cleaning to that
tuple resolves to that one id and the earlier entries' ids go unreferenced. -/
theorem C10_last_entry_wins :
    (∀ (cargos : List CargoEntry) (k : ChaveCargo),
      mapa_cargos_get cargos k =
        ((cargos.filter (fun e => decide (entryChave e = k))).getLast?).map
          (fun e => e.id_cargo_funcao))
    ∧ (∀ (catalog : List CargoEntry), (∀ e ∈ catalog, 0 < e.id_cargo_funcao) →
      ∀ (r : RawRow) (idserv : ℤ) (padrao nivel : Option ℤ) (e : CargoEntry),
        pyIntOfString ((getCell r "Id_SERVIDOR_PORTAL").getD "") = some idserv →
        limpar_valor_int (getCell r "PADRAO_CARGO") = Except.ok padrao →
        limpar_valor_int (getCell r "NIVEL_CARGO") = Except.ok nivel →
        (catalog.filter
          (fun e => decide (entryChave e = fcChave r padrao nivel))).getLast? = some e →
        resolveFCRow catalog r = Except.ok (some ⟨idserv, e.id_cargo_funcao,
          parse_data (getCell r "DATA_INGRESSO_CARGOFUNCAO")⟩)) := by
  refine ⟨mapa_cargos_get_eq_getLast, ?_⟩
  intro catalog hpos r idserv padrao nivel e h1 h2 h3 hlast
  have hm : mapa_cargos_get catalog (fcChave r padrao nivel) = some e.id_cargo_funcao := by
    rw [mapa_cargos_get_eq_getLast, hlast]
    rfl
  have hmem : e ∈ catalog := (List.mem_filter.mp (getLast?_eq_mem _ _ hlast)).1
  have hi : e.id_cargo_funcao ≠ 0 := by
    have := hpos e hmem
    omega
  exact resolveFCRow_of_match h1 h2 h3 hm hi

/-- C10 witness: a catalog with two entries sharing one tuple, with ids 3
then 7, binds the tuple to 7 and resolves a row with that tuple to catalog
id 7. -/
theorem C10_last_entry_wins_witness :
    mapa_cargos_get
      [⟨3, some "A", none, none, none, none, "DESC", none⟩,
       ⟨7, some "A", none, none, none, none, "DESC", none⟩]
      (some "A", none, none, some "DESC") = some 7
    ∧ resolveFCRow
        [⟨3, some "A", none, none, none, none, "DESC", none⟩,
         ⟨7, some "A", none, none, none, none, "DESC", none⟩]
        [("Id_SERVIDOR_PORTAL", some "9"), ("CLASSE_CARGO", some "A"),
         ("DESCRICAO_CARGO", some "DESC")] =
        Except.ok (some ⟨9, 7, none⟩) := by
  constructor
  · rw [C10_last_entry_wins.1
      [⟨3, some "A", none, none, none, none, "DESC", none⟩,
       ⟨7, some "A", none, none, none, none, "DESC", none⟩]
      (some "A", none, none, some "DESC")]
    rfl
  · exact C10_last_entry_wins.2
      [⟨3, some "A", none, none, none, none, "DESC", none⟩,
       ⟨7, some "A", none, none, none, none, "DESC", none⟩] (by decide)
      [("Id_SERVIDOR_PORTAL", some "9"), ("CLASSE_CARGO", some "A"),
       ("DESCRICAO_CARGO", some "DESC")] 9 none none
      ⟨7, some "A", none, none, none, none, "DESC", none⟩ rfl rfl rfl rfl

/-! ## Claim C3: within-batch catalog deduplication -/

/-- Raw role-catalog row whose class cell holds the literal string None. -/
def rawCargoA : RawRow := [("CLASSE_CARGO", some "None"), ("DESCRICAO_CARGO", some "X")]

/-- Raw role-catalog row with a missing class cell and description X. -/
def rawCargoB : RawRow := [("DESCRICAO_CARGO", some "X")]

/-- Raw role-catalog row with a missing class cell and description Y. -/
def rawCargoC : RawRow := [("DESCRICAO_CARGO", some "Y")]

/-- C3 counterexample: rows B and C clean to different concatenated keys,
yet they do not both survive deduplication — row B is dropped because row A
(whose class is the string None, stringifying identically to B's absent
class) comes first with an equal key. So "two cleaned rows survive together
iff their keys differ" fails in the only-if-to-if direction. -/
theorem C3_counterexample :
    chave_logica (cleanCargoRow rawCargoB) ≠ chave_logica (cleanCargoRow rawCargoC)
    ∧ dedupByKey chave_logica
        [cleanCargoRow rawCargoA, cleanCargoRow rawCargoB, cleanCargoRow rawCargoC] =
        [cleanCargoRow rawCargoA, cleanCargoRow rawCargoC]
    ∧ cleanCargoRow rawCargoB ∉
        [cleanCargoRow rawCargoA, cleanCargoRow rawCargoC] :=
  ⟨by decide, by decide, by decide⟩

/-- C3 (amended): the role-catalog importer keeps exactly the first
occurrence, in encounter order, of each distinct concatenated key and drops
every later row with an equal key: the surviving rows form an
order-preserving subsequence with pairwise distinct keys, every input key is
represented, and each survivor is the first row of the cleaned batch bearing
its key. (Two surviving rows always have different keys, but two rows with
different keys need not both survive, as a row is dropped whenever an
earlier row shares its key.) -/
theorem C3_dedup_first_occurrence (l : List CargoRow) :
    (dedupByKey chave_logica l).Pairwise (fun a b => chave_logica a ≠ chave_logica b)
    ∧ List.Sublist (dedupByKey chave_logica l) l
    ∧ (∀ x ∈ l, ∃ y ∈ dedupByKey chave_logica l, chave_logica y = chave_logica x)
    ∧ (∀ y ∈ dedupByKey chave_logica l,
        l.find? (fun x => decide (chave_logica x = chave_logica y)) = some y) := by
  refine ⟨pairwise_dedupGo chave_logica l [],
          sublist_dedupGo chave_logica l [], ?_, ?_⟩
  · intro x hx
    rcases cover_dedupGo chave_logica l [] x hx with hs | hy
    · exact absurd hs (List.not_mem_nil _)
    · exact hy
  · intro y hy
    exact (mem_dedupGo chave_logica l [] y hy).2

/-- C3 witness: on a single cleaned row the survivor is the first (and only)
row bearing its key. -/
theorem C3_dedup_first_occurrence_witness :
    [cleanCargoRow rawCargoA].find?
      (fun x => decide (chave_logica x = chave_logica (cleanCargoRow rawCargoA))) =
      some (cleanCargoRow rawCargoA) :=
  (C3_dedup_first_occurrence [cleanCargoRow rawCargoA]).2.2.2
    (cleanCargoRow rawCargoA) (by decide)
